import Mathlib

/-!
# Verification of the combat-simulator backend

Shallow embedding of `backend.py` (turn, round and match resolution for a
turn-based combat simulator) together with the value types it consumes.
The types `Stats`, `Damage`, `Attack`, `DamageStats`, `BaseCharacter` and the
RNG engine live in the repository's `utils.py`, which is not part of the
sources at hand; they are modelled from the specification (§3, §4.1).
Numeric fields are modelled as rationals (`ℚ`), exact stand-ins for the
Python floats.
-/

set_option maxHeartbeats 1000000

namespace Backend

/-- Modelled from the spec: `Stats` (utils.py, absent from the sources) is a
value bundle of current health, armor (physical mitigation %), magic
resistance (magic mitigation %) and special-trigger chance. -/
structure Stats where
  current_hp : ℚ
  armor : ℚ
  magic_resistance : ℚ
  special_trigger_chance : ℚ
deriving DecidableEq, Repr

/-- Modelled from the spec: the additive combination operation of `Stats`
(utils.py, absent from the sources): each field of the delta is summed onto
the base. -/
def Stats.add_stat_changes (s delta : Stats) : Stats :=
  { current_hp := s.current_hp + delta.current_hp
    armor := s.armor + delta.armor
    magic_resistance := s.magic_resistance + delta.magic_resistance
    special_trigger_chance := s.special_trigger_chance + delta.special_trigger_chance }

/-- Modelled from the spec: `Stats` delta carrying only a health change, the
embedding of the Python call `Stats(current_hp=damage_taken)` with the other
fields left at their zero default. -/
def Stats.ofHp (hp : ℚ) : Stats :=
  { current_hp := hp, armor := 0, magic_resistance := 0, special_trigger_chance := 0 }

/-- Modelled from the spec: `Damage` (utils.py, absent from the sources) is a
value bundle of a physical amount and a magic amount. -/
structure Damage where
  physical : ℚ
  magic : ℚ
deriving DecidableEq, Repr

/-- Modelled from the spec: an `Attack` (utils.py, absent from the sources)
carries a `Damage` payload and an optional set of stat deltas applied to the
attacker (`stat_updates_to_self`; `backend.py` reads it off the attack
object). -/
structure Attack where
  damage : Damage
  stat_updates_to_self : Option Stats
deriving DecidableEq, Repr

/-- Modelled from the spec: `DamageStats` (utils.py, absent from the sources),
the per-character running counters. -/
structure DamageStats where
  damage_dealt : ℚ
  damage_taken : ℚ
  damage_mitigated : ℚ
  kills : ℕ
deriving DecidableEq, Repr

/-- Modelled from the spec: `BaseCharacter` (utils.py, absent from the
sources): identity, the two attacks, the current effective stats and the
running damage statistics. -/
structure BaseCharacter where
  name : String
  basic_attack : Attack
  special_attack : Attack
  effective_stats : Stats
  damage_stats : DamageStats
deriving DecidableEq, Repr

/-- Modelled from the spec: the RNG engine (utils.py, absent from the
sources) is a deterministic probability-gated coin flip with internal state
advancement.  `stream` is the underlying deterministic oracle: the draw
result as a function of the stream position and the requested probability.
`trace` is a ghost record of the probabilities requested so far, in order;
it never influences any draw. -/
structure RngEngine where
  stream : ℕ → ℚ → Bool
  pos : ℕ
  trace : List ℚ

/-- Modelled from the spec: one call `rng(probability)` returns the draw at
the current position and advances the internal state by one. -/
def RngEngine.rng (e : RngEngine) (probability : ℚ) : Bool × RngEngine :=
  (e.stream e.pos probability,
   { stream := e.stream, pos := e.pos + 1, trace := e.trace ++ [probability] })

/-- Embedding of `backend.calculate_damage_taken` (backend.py lines 28–50).
The absent-stats validation error is kept by taking an `Option Stats`; the
two conditional accumulations mirror the Python truthiness tests
`if damage.physical:` and `if damage.magic:` (false exactly at zero). -/
def calculate_damage_taken (damage : Damage) (character_stats : Option Stats) :
    Except String (ℚ × ℚ) :=
  match character_stats with
  | none => .error "Character stats cannot be None"
  | some stats =>
    let mitigated_physical := damage.physical * stats.armor / 100
    let mitigated_magic := damage.magic * stats.magic_resistance / 100
    let hp_lost : ℚ := 0
    let hp_lost := if damage.physical ≠ 0 then hp_lost + (damage.physical - mitigated_physical) else hp_lost
    let hp_lost := if damage.magic ≠ 0 then hp_lost + (damage.magic - mitigated_magic) else hp_lost
    .ok (-hp_lost, mitigated_physical + mitigated_magic)

/-- Embedding of `backend.calculate_miss_chance` (backend.py lines 52–66). -/
def calculate_miss_chance (damage : Damage) (character_stats : Stats) : ℚ :=
  let miss_chance :=
    if damage.magic > damage.physical then character_stats.magic_resistance / 10
    else character_stats.armor / 10
  miss_chance

/-- The unconditional closed form of the damage computation, for comparison
with the conditionally accumulated one. -/
lemma calculate_damage_taken_some (damage : Damage) (s : Stats) :
    calculate_damage_taken damage (some s) =
      .ok (-((damage.physical - damage.physical * s.armor / 100) +
              (damage.magic - damage.magic * s.magic_resistance / 100)),
           damage.physical * s.armor / 100 + damage.magic * s.magic_resistance / 100) := by
  unfold calculate_damage_taken
  rcases eq_or_ne damage.physical 0 with hp | hp <;>
    rcases eq_or_ne damage.magic 0 with hm | hm <;>
    simp [hp, hm]

/-- Embedding of `backend.play_turn` (backend.py lines 68–116).  The Python
function mutates the two character objects in place and returns the turn
description; the embedding returns the description together with the updated
pair `(your_character, opponent_character)` and the advanced RNG engine.
Raising `ValueError` is embedded as `Except.error`. -/
def play_turn (your_character opponent_character : BaseCharacter)
    (is_your_turn : Bool) (rng_engine : RngEngine) :
    Except String (String × BaseCharacter × BaseCharacter × RngEngine) :=
  if your_character.effective_stats.current_hp ≤ 0 ∨
      opponent_character.effective_stats.current_hp ≤ 0 then
    .error "One of the characters is already dead."
  else
    let attacking_char := if is_your_turn then your_character else opponent_character
    let defending_char := if is_your_turn then opponent_character else your_character
    let special_chance := attacking_char.effective_stats.special_trigger_chance
    let draw1 := rng_engine.rng special_chance
    let is_attack_special := draw1.1
    let rng_engine := draw1.2
    let attack := if is_attack_special then attacking_char.special_attack
                  else attacking_char.basic_attack
    let attacking_char :=
      match attack.stat_updates_to_self with
      | some upd =>
        { attacking_char with
            effective_stats := attacking_char.effective_stats.add_stat_changes upd }
      | none => attacking_char
    let miss_chance := calculate_miss_chance attack.damage defending_char.effective_stats
    let draw2 := rng_engine.rng miss_chance
    let is_damage_missed := draw2.1
    let rng_engine := draw2.2
    if is_damage_missed then
      let description :=
        attacking_char.name ++ " missed the attack on " ++ defending_char.name ++ "."
      .ok (description,
           (if is_your_turn then attacking_char else defending_char),
           (if is_your_turn then defending_char else attacking_char),
           rng_engine)
    else
      match calculate_damage_taken attack.damage (some defending_char.effective_stats) with
      | .error e => .error e
      | .ok (damage_taken, mitigated_damage) =>
        let defending_char :=
          { defending_char with
              effective_stats :=
                defending_char.effective_stats.add_stat_changes (Stats.ofHp damage_taken),
              damage_stats :=
                { defending_char.damage_stats with
                    damage_mitigated :=
                      defending_char.damage_stats.damage_mitigated + mitigated_damage } }
        let total_damage := attack.damage.physical + attack.damage.magic
        let attacking_char :=
          { attacking_char with
              damage_stats :=
                { attacking_char.damage_stats with
                    damage_dealt :=
                      attacking_char.damage_stats.damage_dealt + total_damage } }
        let defending_char :=
          { defending_char with
              damage_stats :=
                { defending_char.damage_stats with
                    damage_taken :=
                      defending_char.damage_stats.damage_taken + total_damage } }
        let description :=
          attacking_char.name ++ " hit " ++ defending_char.name ++ " for " ++
            toString total_damage ++ " damage."
        let fainted := defending_char.effective_stats.current_hp ≤ 0
        let description :=
          if fainted then description ++ " " ++ defending_char.name ++ " has fainted."
          else description
        let attacking_char :=
          if fainted then
            { attacking_char with
                damage_stats :=
                  { attacking_char.damage_stats with
                      kills := attacking_char.damage_stats.kills + 1 } }
          else attacking_char
        .ok (description,
             (if is_your_turn then attacking_char else defending_char),
             (if is_your_turn then defending_char else attacking_char),
             rng_engine)

/-- The character attacking this turn (backend.py line 86). -/
def turn_attacker (your_character opponent_character : BaseCharacter)
    (is_your_turn : Bool) : BaseCharacter :=
  if is_your_turn then your_character else opponent_character

/-- The character defending this turn (backend.py line 87). -/
def turn_defender (your_character opponent_character : BaseCharacter)
    (is_your_turn : Bool) : BaseCharacter :=
  if is_your_turn then opponent_character else your_character

/-- The attack chosen this turn: the special attack when the first RNG draw
(at the attacker's special-trigger chance) succeeds, the basic attack
otherwise (backend.py lines 89–91). -/
def turn_attack (your_character opponent_character : BaseCharacter)
    (is_your_turn : Bool) (e : RngEngine) : Attack :=
  let a := turn_attacker your_character opponent_character is_your_turn
  if e.stream e.pos a.effective_stats.special_trigger_chance then a.special_attack
  else a.basic_attack

/-- The probability of the second RNG draw of the turn: the miss chance of
the chosen attack against the defender's stats (backend.py line 96). -/
def turn_miss_chance (your_character opponent_character : BaseCharacter)
    (is_your_turn : Bool) (e : RngEngine) : ℚ :=
  calculate_miss_chance
    (turn_attack your_character opponent_character is_your_turn e).damage
    (turn_defender your_character opponent_character is_your_turn).effective_stats

/-- A character with the given name, health, mitigation stats, special-trigger
chance and single attack, with fresh damage statistics; sample data for
concrete runs. -/
def mkChar (nm : String) (hp armor mr stc : ℚ) (atk : Attack) : BaseCharacter :=
  { name := nm, basic_attack := atk, special_attack := atk,
    effective_stats :=
      { current_hp := hp, armor := armor, magic_resistance := mr,
        special_trigger_chance := stc },
    damage_stats :=
      { damage_dealt := 0, damage_taken := 0, damage_mitigated := 0, kills := 0 } }

/-- Sample attack: 20 physical damage, no magic, no self stat updates. -/
def atkPhys20 : Attack := ⟨⟨20, 0⟩, none⟩

/-- Sample character with 30 health and no mitigation. -/
def heroA : BaseCharacter := mkChar "A" 30 0 0 0 atkPhys20

/-- Sample character with 15 health and no mitigation. -/
def heroB : BaseCharacter := mkChar "B" 15 0 0 0 atkPhys20

/-- Sample character with 0 health (already defeated). -/
def heroDead : BaseCharacter := mkChar "D" 0 0 0 0 atkPhys20

/-- RNG engine whose stream always answers `false` (no special, no miss). -/
def rngFalse : RngEngine := ⟨fun _ _ => false, 0, []⟩

/-- RNG engine answering `true` exactly at stream position 1 (the miss roll
of the first turn succeeds; the special roll fails). -/
def rngMissFirst : RngEngine := ⟨fun n _ => n == 1, 0, []⟩

end Backend

/-- C2: for every damage payload `d` and every non-absent defender stats `s`,
`calculate_damage_taken d s` returns exactly the pair
`(-(d.physical - d.physical*s.armor/100 + (d.magic - d.magic*s.magic_resistance/100)),
  d.physical*s.armor/100 + d.magic*s.magic_resistance/100)`:
the conditional accumulation that skips a term when the corresponding damage
field is zero is equivalent to the unconditional formula. -/
theorem c2_calculate_damage_taken_formula (d : Backend.Damage) (s : Backend.Stats) :
    Backend.calculate_damage_taken d (some s) =
      .ok (-((d.physical - d.physical * s.armor / 100) +
              (d.magic - d.magic * s.magic_resistance / 100)),
           d.physical * s.armor / 100 + d.magic * s.magic_resistance / 100) :=
  Backend.calculate_damage_taken_some d s

/-- C3: `calculate_miss_chance d s` is `s.magic_resistance / 10` when
`d.magic > d.physical` and `s.armor / 10` otherwise; in particular at
`d.physical = d.magic = 10`, `armor = 20`, `magic_resistance = 80` the result
is `2` (the physical/armor branch wins the tie). -/
theorem c3_calculate_miss_chance (d : Backend.Damage) (s : Backend.Stats) :
    Backend.calculate_miss_chance d s =
      (if d.magic > d.physical then s.magic_resistance / 10 else s.armor / 10) ∧
    Backend.calculate_miss_chance ⟨10, 10⟩
      { current_hp := 100, armor := 20, magic_resistance := 80,
        special_trigger_chance := 0 } = 2 := by
  constructor
  · rfl
  · norm_num [Backend.calculate_miss_chance]

namespace Backend

/-- Calling `play_turn` on two live combatants never raises: the absent-stats branch
of `calculate_damage_taken` is unreachable and every other path returns a
description. -/
lemma play_turn_ok_of_alive (yc oc : BaseCharacter) (turn : Bool) (e : RngEngine)
    (hy : 0 < yc.effective_stats.current_hp) (ho : 0 < oc.effective_stats.current_hp) :
    ∃ r, play_turn yc oc turn e = .ok r := by
  have hcond : ¬(yc.effective_stats.current_hp ≤ 0 ∨
      oc.effective_stats.current_hp ≤ 0) := by
    push_neg
    exact ⟨hy, ho⟩
  simp only [play_turn, RngEngine.rng, calculate_damage_taken_some, if_neg hcond]
  repeat' split
  all_goals exact ⟨_, rfl⟩

/-- When both combatants are alive and the miss roll succeeds, `play_turn`
returns normally with the defender passed back unchanged (only the attacker
side may have been updated, by its own stat changes). -/
lemma play_turn_miss_ok (yc oc : BaseCharacter) (turn : Bool) (e : RngEngine)
    (hy : 0 < yc.effective_stats.current_hp) (ho : 0 < oc.effective_stats.current_hp)
    (hmiss : e.stream (e.pos + 1) (turn_miss_chance yc oc turn e) = true) :
    ∃ desc a2 e2, play_turn yc oc turn e =
      .ok (desc, (if turn then a2 else yc), (if turn then oc else a2), e2) := by
  have hcond : ¬(yc.effective_stats.current_hp ≤ 0 ∨
      oc.effective_stats.current_hp ≤ 0) := by
    push_neg
    exact ⟨hy, ho⟩
  simp only [turn_miss_chance, turn_attack, turn_attacker, turn_defender] at hmiss
  simp only [play_turn, RngEngine.rng, if_neg hcond]
  repeat' split
  all_goals simp_all

/-- A `play_turn` call that returns normally was made on two live
combatants. -/
lemma play_turn_alive_of_ok (yc oc : BaseCharacter) (turn : Bool) (e : RngEngine)
    (r : String × BaseCharacter × BaseCharacter × RngEngine)
    (h : play_turn yc oc turn e = .ok r) :
    0 < yc.effective_stats.current_hp ∧ 0 < oc.effective_stats.current_hp := by
  by_contra hc
  rw [Decidable.not_and_iff_or_not, not_lt, not_lt] at hc
  have herr : play_turn yc oc turn e = .error "One of the characters is already dead." := by
    unfold play_turn
    rw [if_pos hc]
  rw [herr] at h
  exact absurd h (by simp)

end Backend

/-- C5: `play_turn` fails with the dead-combatant error exactly when at least
one of the two combatants has non-positive current health, and under the
precondition that both are strictly positive it returns normally, before any
mutation. -/
theorem c5_dead_precondition (yc oc : Backend.BaseCharacter) (turn : Bool)
    (e : Backend.RngEngine) :
    ((yc.effective_stats.current_hp ≤ 0 ∨ oc.effective_stats.current_hp ≤ 0) →
      Backend.play_turn yc oc turn e = .error "One of the characters is already dead.") ∧
    ((0 < yc.effective_stats.current_hp ∧ 0 < oc.effective_stats.current_hp) →
      ∃ r, Backend.play_turn yc oc turn e = .ok r) := by
  constructor
  · intro h
    unfold Backend.play_turn
    rw [if_pos h]
  · intro h
    exact Backend.play_turn_ok_of_alive yc oc turn e h.1 h.2

/-- Witness for C5 at concrete inputs: a defeated participant triggers the
error, two live participants do not. -/
theorem c5_witness :
    (((Backend.heroDead).effective_stats.current_hp ≤ 0 ∨
        (Backend.heroB).effective_stats.current_hp ≤ 0) →
      Backend.play_turn Backend.heroDead Backend.heroB true Backend.rngFalse =
        .error "One of the characters is already dead.") ∧
    ((0 < (Backend.heroDead).effective_stats.current_hp ∧
        0 < (Backend.heroB).effective_stats.current_hp) →
      ∃ r, Backend.play_turn Backend.heroDead Backend.heroB true Backend.rngFalse = .ok r) :=
  c5_dead_precondition Backend.heroDead Backend.heroB true Backend.rngFalse

/-- C6: whenever the miss roll succeeds (the attack misses), a normally
returning `play_turn` leaves the defending character entirely unchanged:
its effective stats (health included) and all of its damage statistics. -/
theorem c6_miss_defender_unchanged (yc oc : Backend.BaseCharacter) (turn : Bool)
    (e : Backend.RngEngine) (desc : String) (yc2 oc2 : Backend.BaseCharacter)
    (e2 : Backend.RngEngine)
    (hmiss : e.stream (e.pos + 1) (Backend.turn_miss_chance yc oc turn e) = true)
    (h : Backend.play_turn yc oc turn e = .ok (desc, yc2, oc2, e2)) :
    Backend.turn_defender yc2 oc2 turn = Backend.turn_defender yc oc turn := by
  obtain ⟨hy, ho⟩ := Backend.play_turn_alive_of_ok yc oc turn e _ h
  obtain ⟨d, a2, e3, hh⟩ := Backend.play_turn_miss_ok yc oc turn e hy ho hmiss
  rw [h] at hh
  simp only [Except.ok.injEq, Prod.mk.injEq] at hh
  cases turn
  · simpa [Backend.turn_defender] using hh.2.1
  · simpa [Backend.turn_defender] using hh.2.2.1

/-- Witness for C6 at concrete inputs: with the RNG stream answering `true`
at the miss roll, the defender (second slot, your turn) is returned
unchanged. -/
theorem c6_witness :
    Backend.turn_defender Backend.heroA Backend.heroB true =
      Backend.turn_defender Backend.heroA Backend.heroB true :=
  c6_miss_defender_unchanged Backend.heroA Backend.heroB true Backend.rngMissFirst
    "A missed the attack on B." Backend.heroA Backend.heroB
    { stream := Backend.rngMissFirst.stream, pos := 2, trace := [0, 0] }
    (by rfl)
    (by norm_num [Backend.play_turn, Backend.RngEngine.rng, Backend.heroA, Backend.heroB,
          Backend.mkChar, Backend.atkPhys20, Backend.rngMissFirst,
          Backend.calculate_miss_chance, Backend.calculate_damage_taken];
        rfl)

/-- C9: every normally returning `play_turn` call consumes exactly two RNG
draws, in a fixed order — first the special-trigger roll at the attacker's
special-trigger chance, then the miss roll at the computed miss chance —
whether the attack hits or misses: the engine comes back with its position
advanced by exactly two and its request trace extended by exactly those two
probabilities. -/
theorem c9_two_rng_draws (yc oc : Backend.BaseCharacter) (turn : Bool)
    (e : Backend.RngEngine)
    (hy : 0 < yc.effective_stats.current_hp)
    (ho : 0 < oc.effective_stats.current_hp) :
    ∃ desc yc2 oc2, Backend.play_turn yc oc turn e =
      .ok (desc, yc2, oc2,
        { stream := e.stream, pos := e.pos + 2,
          trace := e.trace ++
            [(Backend.turn_attacker yc oc turn).effective_stats.special_trigger_chance,
             Backend.turn_miss_chance yc oc turn e] }) := by
  have hcond : ¬(yc.effective_stats.current_hp ≤ 0 ∨
      oc.effective_stats.current_hp ≤ 0) := by
    push_neg
    exact ⟨hy, ho⟩
  simp only [Backend.turn_miss_chance, Backend.turn_attack, Backend.turn_attacker,
    Backend.turn_defender]
  simp only [Backend.play_turn, Backend.RngEngine.rng,
    Backend.calculate_damage_taken_some, if_neg hcond]
  repeat' split
  all_goals simp_all [List.append_assoc]

/-- Witness for C9 at concrete inputs: one turn between two live characters
advances the RNG position from 0 to 2 and requests exactly the
special-trigger chance and then the miss chance. -/
theorem c9_witness :
    ∃ desc yc2 oc2,
      Backend.play_turn Backend.heroA Backend.heroB true Backend.rngFalse =
        .ok (desc, yc2, oc2,
          { stream := Backend.rngFalse.stream, pos := Backend.rngFalse.pos + 2,
            trace := Backend.rngFalse.trace ++
              [(Backend.turn_attacker Backend.heroA Backend.heroB true).effective_stats.special_trigger_chance,
               Backend.turn_miss_chance Backend.heroA Backend.heroB true Backend.rngFalse] }) :=
  c9_two_rng_draws Backend.heroA Backend.heroB true Backend.rngFalse
    (by norm_num [Backend.heroA, Backend.mkChar, Backend.atkPhys20])
    (by norm_num [Backend.heroB, Backend.mkChar, Backend.atkPhys20])

namespace Backend

/-- The attacker after its own optional stat updates (backend.py lines
93–94). -/
def updated_attacker (a : BaseCharacter) (attack : Attack) : BaseCharacter :=
  match attack.stat_updates_to_self with
  | some upd => { a with effective_stats := a.effective_stats.add_stat_changes upd }
  | none => a

/-- The full outcome of a hit turn (backend.py lines 101–116), as a function
of the damage pair `(dt, mit)` returned by `calculate_damage_taken`:
description, updated pair in `(your, opponent)` order, and the engine after
its two draws. -/
def hit_result (yc oc : BaseCharacter) (turn : Bool) (e : RngEngine) (dt mit : ℚ) :
    String × BaseCharacter × BaseCharacter × RngEngine :=
  let atk1 := updated_attacker (turn_attacker yc oc turn) (turn_attack yc oc turn e)
  let df := turn_defender yc oc turn
  let total := (turn_attack yc oc turn e).damage.physical +
    (turn_attack yc oc turn e).damage.magic
  let df2 :=
    { df with
        effective_stats := df.effective_stats.add_stat_changes (Stats.ofHp dt),
        damage_stats :=
          { df.damage_stats with
              damage_mitigated := df.damage_stats.damage_mitigated + mit,
              damage_taken := df.damage_stats.damage_taken + total } }
  let fainted := df2.effective_stats.current_hp ≤ 0
  let atk2 :=
    { atk1 with
        damage_stats :=
          { atk1.damage_stats with
              damage_dealt := atk1.damage_stats.damage_dealt + total,
              kills := atk1.damage_stats.kills + (if fainted then 1 else 0) } }
  let desc0 := atk1.name ++ " hit " ++ df2.name ++ " for " ++ toString total ++ " damage."
  let desc := if fainted then desc0 ++ " " ++ df2.name ++ " has fainted." else desc0
  (desc, (if turn then atk2 else df2), (if turn then df2 else atk2),
   { stream := e.stream, pos := e.pos + 2,
     trace := e.trace ++ [(turn_attacker yc oc turn).effective_stats.special_trigger_chance,
                          turn_miss_chance yc oc turn e] })

/-- When both combatants are alive and the miss roll fails, `play_turn`
returns exactly the hit outcome computed from the damage pair. -/
lemma play_turn_hit_eq (yc oc : BaseCharacter) (turn : Bool) (e : RngEngine)
    (dt mit : ℚ)
    (hy : 0 < yc.effective_stats.current_hp)
    (ho : 0 < oc.effective_stats.current_hp)
    (hmiss : e.stream (e.pos + 1) (turn_miss_chance yc oc turn e) = false)
    (hdmg : calculate_damage_taken (turn_attack yc oc turn e).damage
        (some (turn_defender yc oc turn).effective_stats) = .ok (dt, mit)) :
    play_turn yc oc turn e = .ok (hit_result yc oc turn e dt mit) := by
  have hcond : ¬(yc.effective_stats.current_hp ≤ 0 ∨
      oc.effective_stats.current_hp ≤ 0) := by
    push_neg
    exact ⟨hy, ho⟩
  simp only [turn_miss_chance, turn_attack, turn_attacker, turn_defender] at hmiss hdmg
  simp only [hit_result, updated_attacker, turn_miss_chance, turn_attack,
    turn_attacker, turn_defender]
  simp only [play_turn, RngEngine.rng, if_neg hcond]
  repeat' split
  all_goals simp_all [List.append_assoc]

end Backend

namespace Backend

/-- Applying an attack's optional self stat updates never touches the
attacker's damage statistics. -/
lemma updated_attacker_damage_stats (a : BaseCharacter) (attack : Attack) :
    (updated_attacker a attack).damage_stats = a.damage_stats := by
  cases h : attack.stat_updates_to_self <;> simp [updated_attacker, h]

/-- Applying an attack's optional self stat updates never changes the
attacker's name. -/
lemma updated_attacker_name (a : BaseCharacter) (attack : Attack) :
    (updated_attacker a attack).name = a.name := by
  cases h : attack.stat_updates_to_self <;> simp [updated_attacker, h]

end Backend

/-- C4: on a hit (the miss roll fails), `play_turn` adds the computed health
delta to the defender's current health (no clamping at zero), adds the
mitigated amount to the defender's `damage_mitigated`, adds the raw
unmitigated total `physical + magic` to the attacker's `damage_dealt` and to
the defender's `damage_taken`, and increments the attacker's `kills` by
exactly 1 iff the defender's resulting health is ≤ 0, in which case the
narration carries the fainted clause. -/
theorem c4_hit_updates (yc oc : Backend.BaseCharacter) (turn : Bool)
    (e : Backend.RngEngine) (dt mit : ℚ) (desc : String)
    (yc2 oc2 : Backend.BaseCharacter) (e2 : Backend.RngEngine)
    (hmiss : e.stream (e.pos + 1) (Backend.turn_miss_chance yc oc turn e) = false)
    (hdmg : Backend.calculate_damage_taken (Backend.turn_attack yc oc turn e).damage
        (some (Backend.turn_defender yc oc turn).effective_stats) = .ok (dt, mit))
    (h : Backend.play_turn yc oc turn e = .ok (desc, yc2, oc2, e2)) :
    (Backend.turn_defender yc2 oc2 turn).effective_stats.current_hp =
      (Backend.turn_defender yc oc turn).effective_stats.current_hp + dt ∧
    (Backend.turn_defender yc2 oc2 turn).damage_stats.damage_mitigated =
      (Backend.turn_defender yc oc turn).damage_stats.damage_mitigated + mit ∧
    (Backend.turn_attacker yc2 oc2 turn).damage_stats.damage_dealt =
      (Backend.turn_attacker yc oc turn).damage_stats.damage_dealt +
        ((Backend.turn_attack yc oc turn e).damage.physical +
         (Backend.turn_attack yc oc turn e).damage.magic) ∧
    (Backend.turn_defender yc2 oc2 turn).damage_stats.damage_taken =
      (Backend.turn_defender yc oc turn).damage_stats.damage_taken +
        ((Backend.turn_attack yc oc turn e).damage.physical +
         (Backend.turn_attack yc oc turn e).damage.magic) ∧
    (Backend.turn_attacker yc2 oc2 turn).damage_stats.kills =
      (Backend.turn_attacker yc oc turn).damage_stats.kills +
        (if (Backend.turn_defender yc2 oc2 turn).effective_stats.current_hp ≤ 0
         then 1 else 0) ∧
    ((Backend.turn_defender yc2 oc2 turn).effective_stats.current_hp ≤ 0 →
      ∃ pre, desc = pre ++ ((Backend.turn_defender yc oc turn).name ++ " has fainted.")) := by
  obtain ⟨hy, ho⟩ := Backend.play_turn_alive_of_ok yc oc turn e _ h
  have hh := Backend.play_turn_hit_eq yc oc turn e dt mit hy ho hmiss hdmg
  rw [h] at hh
  simp only [Except.ok.injEq] at hh
  cases turn <;>
  · simp only [Backend.hit_result, Backend.turn_attacker, Backend.turn_defender,
      Bool.false_eq_true, if_false, if_true, Prod.mk.injEq] at hh ⊢
    obtain ⟨hd, hyc2, hoc2, he2⟩ := hh
    subst hd hyc2 hoc2
    refine ⟨by simp [Backend.Stats.add_stat_changes, Backend.Stats.ofHp],
      rfl,
      by simp [Backend.updated_attacker_damage_stats],
      rfl,
      by simp [Backend.updated_attacker_damage_stats],
      ?_⟩
    intro hf
    split
    · exact ⟨_, by rw [String.append_assoc]⟩
    · rename_i hnf
      exact absurd hf hnf

/-- Witness for C4 at concrete inputs: 20 physical damage against an
unarmored defender at 15 health — health drops to -5, the defender faints
and the attacker records the kill. -/
theorem c4_witness :
    ((Backend.turn_defender
        (Backend.hit_result Backend.heroA Backend.heroB true Backend.rngFalse (-20) 0).2.1
        (Backend.hit_result Backend.heroA Backend.heroB true Backend.rngFalse (-20) 0).2.2.1
        true).effective_stats.current_hp =
      (Backend.turn_defender Backend.heroA Backend.heroB true).effective_stats.current_hp + -20 ∧
    (Backend.turn_defender
        (Backend.hit_result Backend.heroA Backend.heroB true Backend.rngFalse (-20) 0).2.1
        (Backend.hit_result Backend.heroA Backend.heroB true Backend.rngFalse (-20) 0).2.2.1
        true).damage_stats.damage_mitigated =
      (Backend.turn_defender Backend.heroA Backend.heroB true).damage_stats.damage_mitigated + 0 ∧
    (Backend.turn_attacker
        (Backend.hit_result Backend.heroA Backend.heroB true Backend.rngFalse (-20) 0).2.1
        (Backend.hit_result Backend.heroA Backend.heroB true Backend.rngFalse (-20) 0).2.2.1
        true).damage_stats.damage_dealt =
      (Backend.turn_attacker Backend.heroA Backend.heroB true).damage_stats.damage_dealt +
        ((Backend.turn_attack Backend.heroA Backend.heroB true Backend.rngFalse).damage.physical +
         (Backend.turn_attack Backend.heroA Backend.heroB true Backend.rngFalse).damage.magic) ∧
    (Backend.turn_defender
        (Backend.hit_result Backend.heroA Backend.heroB true Backend.rngFalse (-20) 0).2.1
        (Backend.hit_result Backend.heroA Backend.heroB true Backend.rngFalse (-20) 0).2.2.1
        true).damage_stats.damage_taken =
      (Backend.turn_defender Backend.heroA Backend.heroB true).damage_stats.damage_taken +
        ((Backend.turn_attack Backend.heroA Backend.heroB true Backend.rngFalse).damage.physical +
         (Backend.turn_attack Backend.heroA Backend.heroB true Backend.rngFalse).damage.magic) ∧
    (Backend.turn_attacker
        (Backend.hit_result Backend.heroA Backend.heroB true Backend.rngFalse (-20) 0).2.1
        (Backend.hit_result Backend.heroA Backend.heroB true Backend.rngFalse (-20) 0).2.2.1
        true).damage_stats.kills =
      (Backend.turn_attacker Backend.heroA Backend.heroB true).damage_stats.kills +
        (if (Backend.turn_defender
              (Backend.hit_result Backend.heroA Backend.heroB true Backend.rngFalse (-20) 0).2.1
              (Backend.hit_result Backend.heroA Backend.heroB true Backend.rngFalse (-20) 0).2.2.1
              true).effective_stats.current_hp ≤ 0
         then 1 else 0) ∧
    ((Backend.turn_defender
        (Backend.hit_result Backend.heroA Backend.heroB true Backend.rngFalse (-20) 0).2.1
        (Backend.hit_result Backend.heroA Backend.heroB true Backend.rngFalse (-20) 0).2.2.1
        true).effective_stats.current_hp ≤ 0 →
      ∃ pre, (Backend.hit_result Backend.heroA Backend.heroB true Backend.rngFalse (-20) 0).1 =
        pre ++ ((Backend.turn_defender Backend.heroA Backend.heroB true).name ++ " has fainted."))) :=
  c4_hit_updates Backend.heroA Backend.heroB true Backend.rngFalse (-20) 0
    (Backend.hit_result Backend.heroA Backend.heroB true Backend.rngFalse (-20) 0).1
    (Backend.hit_result Backend.heroA Backend.heroB true Backend.rngFalse (-20) 0).2.1
    (Backend.hit_result Backend.heroA Backend.heroB true Backend.rngFalse (-20) 0).2.2.1
    (Backend.hit_result Backend.heroA Backend.heroB true Backend.rngFalse (-20) 0).2.2.2
    (by rfl)
    (by norm_num [Backend.calculate_damage_taken, Backend.turn_attack, Backend.turn_attacker,
      Backend.turn_defender, Backend.heroA, Backend.heroB, Backend.mkChar, Backend.atkPhys20,
      Backend.rngFalse])
    (Backend.play_turn_hit_eq Backend.heroA Backend.heroB true Backend.rngFalse (-20) 0
      (by norm_num [Backend.heroA, Backend.mkChar, Backend.atkPhys20])
      (by norm_num [Backend.heroB, Backend.mkChar, Backend.atkPhys20])
      (by rfl)
      (by norm_num [Backend.calculate_damage_taken, Backend.turn_attack, Backend.turn_attacker,
        Backend.turn_defender, Backend.heroA, Backend.heroB, Backend.mkChar, Backend.atkPhys20,
        Backend.rngFalse]))

namespace Backend

/-- The mutable state of `play_round`'s while loop (backend.py lines
139–154): the two teams (whose members are updated in place in Python),
the two indices, whose turn it is, and the battle log. -/
structure RoundState where
  your_team : List BaseCharacter
  opponent_team : List BaseCharacter
  your_index : ℕ
  opponent_index : ℕ
  is_your_turn : Bool
  battle_log : List String
deriving DecidableEq

/-- Embedding of the while loop of `backend.play_round` (backend.py lines
145–154).  The Python loop need not terminate (e.g. if every attack always
misses), so the embedding takes a fuel bound on the number of iterations:
`.ok none` means the fuel ran out mid-loop, `.ok (some (s, rng))` is normal
loop exit, and `.error` propagates `play_turn`'s `ValueError`. -/
def play_round_loop (fuel : ℕ) (s : RoundState) (rng : RngEngine) :
    Except String (Option (RoundState × RngEngine)) :=
  if h : s.your_index < s.your_team.length ∧ s.opponent_index < s.opponent_team.length then
    match fuel with
    | 0 => .ok none
    | fuel + 1 =>
      match play_turn (s.your_team.get ⟨s.your_index, h.1⟩)
          (s.opponent_team.get ⟨s.opponent_index, h.2⟩) s.is_your_turn rng with
      | .error e => .error e
      | .ok (turn_description, yc, oc, rng) =>
        play_round_loop fuel
          { your_team := s.your_team.set s.your_index yc
            opponent_team := s.opponent_team.set s.opponent_index oc
            your_index :=
              if yc.effective_stats.current_hp ≤ 0 then s.your_index + 1 else s.your_index
            opponent_index :=
              if oc.effective_stats.current_hp ≤ 0 then s.opponent_index + 1
              else s.opponent_index
            is_your_turn := !s.is_your_turn
            battle_log := s.battle_log ++ [turn_description] } rng
  else
    .ok (some (s, rng))

/-- Embedding of `backend.play_round` (backend.py lines 118–157), with the
external loader factored out: the two teams are passed directly in place of
the two assignment paths fed to `read_data`.  Returns the win flag, the
battle log, both teams' final states and the advanced RNG engine (mutated in
place in Python), or `.ok none` if the fuel ran out. -/
def play_round (fuel : ℕ) (your_team opponent_team : List BaseCharacter)
    (is_your_turn_first : Bool) (rng_engine : RngEngine) :
    Except String (Option (Bool × List String ×
      (List BaseCharacter × List BaseCharacter) × RngEngine)) :=
  match play_round_loop fuel
      { your_team := your_team, opponent_team := opponent_team,
        your_index := 0, opponent_index := 0,
        is_your_turn := is_your_turn_first, battle_log := [] } rng_engine with
  | .error e => .error e
  | .ok none => .ok none
  | .ok (some (s, rng)) =>
    .ok (some (decide (s.your_index < s.your_team.length), s.battle_log,
      (s.your_team, s.opponent_team), rng))

end Backend

namespace Backend

/-- Normal exit of the round loop happens exactly when the while guard has
become false: at the final state at least one index has reached its team's
length. -/
lemma play_round_loop_exit (fuel : ℕ) (s : RoundState) (rng : RngEngine)
    (s2 : RoundState) (rng2 : RngEngine)
    (h : play_round_loop fuel s rng = .ok (some (s2, rng2))) :
    ¬(s2.your_index < s2.your_team.length ∧
      s2.opponent_index < s2.opponent_team.length) := by
  induction fuel generalizing s rng with
  | zero =>
    unfold play_round_loop at h
    split at h
    · simp at h
    · rename_i hguard
      simp only [Except.ok.injEq, Option.some.injEq, Prod.mk.injEq] at h
      obtain ⟨h1, h2⟩ := h
      subst h1
      exact hguard
  | succ fuel ih =>
    unfold play_round_loop at h
    split at h
    · split at h
      · simp at h
      · split at h
        · simp at h
        · rename_i f1 f2 heq1 x td yc oc rng3 heq2
          obtain rfl : f2 = fuel := by omega
          exact ih _ _ h
    · rename_i hguard
      simp only [Except.ok.injEq, Option.some.injEq, Prod.mk.injEq] at h
      obtain ⟨h1, h2⟩ := h
      subst h1
      exact hguard

end Backend

namespace Backend

/-- An attack that also drains its own attacker: 100 physical damage and a
self stat update of -1000 health. -/
def suicideAtk : Attack := ⟨⟨100, 0⟩, some ⟨-1000, 0, 0, 0⟩⟩

/-- Sample character whose attack kills itself along with its target. -/
def suicideA : BaseCharacter := mkChar "S" 10 0 0 0 suicideAtk

/-- Sample victim character with 10 health and no mitigation. -/
def victimB : BaseCharacter := mkChar "V" 10 0 0 0 atkPhys20

end Backend

/-- C10: an empty "your" team makes `play_round` return a loss with an empty
battle log without playing any turn, and a non-empty "your" team against an
empty opponent team likewise returns a win with an empty battle log: empty
teams are not rejected, they silently decide the round. -/
theorem c10_empty_teams (fuel : ℕ) (first : Bool) (rng : Backend.RngEngine) :
    (∀ ot, Backend.play_round fuel [] ot first rng = .ok (some (false, [], ([], ot), rng))) ∧
    (∀ yt, yt ≠ [] →
      Backend.play_round fuel yt [] first rng = .ok (some (true, [], (yt, []), rng))) := by
  constructor
  · intro ot
    simp [Backend.play_round, Backend.play_round_loop]
  · intro yt hne
    have hpos : 0 < yt.length := List.length_pos.mpr hne
    simp [Backend.play_round, Backend.play_round_loop, hpos]

/-- Witness for C10 at concrete inputs: fuel 1 and a fixed RNG engine. -/
theorem c10_witness :
    (∀ ot, Backend.play_round 1 [] ot true Backend.rngFalse =
      .ok (some (false, [], ([], ot), Backend.rngFalse))) ∧
    (∀ yt, yt ≠ [] →
      Backend.play_round 1 yt [] true Backend.rngFalse =
        .ok (some (true, [], (yt, []), Backend.rngFalse))) :=
  c10_empty_teams 1 true Backend.rngFalse

/-- C1 (amended): `play_round` reports a win iff, at loop exit, your index
has not exhausted your team; the loop only exits once some side is
exhausted, and whenever your index has exhausted your team — simultaneous
double-exhaustion included — the round counts as a loss for "your" side. -/
theorem c1_round_win_iff (fuel : ℕ) (yt ot : List Backend.BaseCharacter)
    (first : Bool) (rng : Backend.RngEngine) (win : Bool) (log : List String)
    (yt2 ot2 : List Backend.BaseCharacter) (rng2 : Backend.RngEngine)
    (h : Backend.play_round fuel yt ot first rng = .ok (some (win, log, (yt2, ot2), rng2))) :
    ∃ s : Backend.RoundState,
      Backend.play_round_loop fuel
        ⟨yt, ot, 0, 0, first, []⟩ rng = .ok (some (s, rng2)) ∧
      s.your_team = yt2 ∧ s.opponent_team = ot2 ∧ s.battle_log = log ∧
      (win = true ↔ s.your_index < s.your_team.length) ∧
      (s.your_team.length ≤ s.your_index ∨ s.opponent_team.length ≤ s.opponent_index) ∧
      (s.your_team.length ≤ s.your_index → win = false) := by
  unfold Backend.play_round at h
  split at h
  · simp at h
  · simp at h
  · rename_i s rng3 heq
    simp only [Except.ok.injEq, Option.some.injEq, Prod.mk.injEq] at h
    obtain ⟨hwin, hlog, ⟨hyt, hot⟩, hrng⟩ := h
    subst hrng
    refine ⟨s, heq, hyt, hot, hlog, ?_, ?_, ?_⟩
    · rw [← hwin]
      simp
    · have hx := Backend.play_round_loop_exit fuel _ rng s _ heq
      rw [not_and_or, not_lt, not_lt] at hx
      exact hx
    · intro hle
      rw [← hwin]
      simp [Nat.not_lt.mpr hle]

/-- Witness for C1's amended theorem at concrete inputs: two empty teams. -/
theorem c1_witness :
    ∃ s : Backend.RoundState,
      Backend.play_round_loop 1
        ⟨[], [], 0, 0, true, []⟩ Backend.rngFalse = .ok (some (s, Backend.rngFalse)) ∧
      s.your_team = [] ∧ s.opponent_team = [] ∧ s.battle_log = [] ∧
      (false = true ↔ s.your_index < s.your_team.length) ∧
      (s.your_team.length ≤ s.your_index ∨ s.opponent_team.length ≤ s.opponent_index) ∧
      (s.your_team.length ≤ s.your_index → false = false) :=
  c1_round_win_iff 1 [] [] true Backend.rngFalse false [] [] [] Backend.rngFalse (by rfl)

/-- Counterexample to C1 as stated: a self-draining attacker kills the last
member of each team in the same turn, both indices reach their teams'
lengths (1 and 1), and `play_round` reports `your_win = false` — simultaneous
double-exhaustion is a loss, not a win, for "your" side. -/
theorem c1_counterexample :
    (Backend.play_round 2 [Backend.suicideA] [Backend.victimB] true Backend.rngFalse).map
        (Option.map (fun r => r.1)) = .ok (some false) ∧
    (Backend.play_round_loop 2
        ⟨[Backend.suicideA], [Backend.victimB], 0, 0, true, []⟩ Backend.rngFalse).map
        (Option.map (fun p =>
          (p.1.your_index, p.1.your_team.length,
           p.1.opponent_index, p.1.opponent_team.length))) =
      .ok (some (1, 1, 1, 1)) := by
  constructor <;>
    norm_num [Backend.play_round, Backend.play_round_loop, Backend.play_turn,
      Backend.RngEngine.rng, Backend.calculate_miss_chance, Backend.calculate_damage_taken,
      Backend.Stats.add_stat_changes, Backend.Stats.ofHp, Backend.mkChar,
      Backend.suicideA, Backend.victimB, Backend.suicideAtk, Backend.atkPhys20,
      Backend.rngFalse, Except.map, Option.map]

namespace Backend

/-- Every character of `team` from position `idx` onward is alive. -/
def alive_from (team : List BaseCharacter) (idx : ℕ) : Prop :=
  ∀ i (h : i < team.length), idx ≤ i → 0 < (team.get ⟨i, h⟩).effective_stats.current_hp

/-- Replacing the character at the current position and stepping past it
preserves liveness of the remaining suffix. -/
lemma alive_from_set_succ (team : List BaseCharacter) (idx : ℕ) (c : BaseCharacter)
    (hI : alive_from team idx) : alive_from (team.set idx c) (idx + 1) := by
  intro i h hle
  rw [List.length_set] at h
  have hne : idx ≠ i := by omega
  simp only [List.get_eq_getElem, List.getElem_set_ne hne]
  exact hI i h (by omega)

/-- Replacing the character at the current position by a live character
preserves liveness from that position onward. -/
lemma alive_from_set_alive (team : List BaseCharacter) (idx : ℕ) (c : BaseCharacter)
    (hI : alive_from team idx) (hc : 0 < c.effective_stats.current_hp) :
    alive_from (team.set idx c) idx := by
  intro i h hle
  rw [List.length_set] at h
  rcases eq_or_ne idx i with rfl | hne
  · simp only [List.get_eq_getElem, List.getElem_set_self]
    exact hc
  · simp only [List.get_eq_getElem, List.getElem_set_ne hne]
    exact hI i h hle

/-- The round loop's liveness invariant: on both sides, every character from
the current index onward is alive. -/
def RoundInv (s : RoundState) : Prop :=
  alive_from s.your_team s.your_index ∧ alive_from s.opponent_team s.opponent_index

/-- Under the liveness invariant the round loop never raises: every
`play_turn` call it makes is on two live characters, and the post-turn index
checks restore the invariant for the next iteration. -/
lemma play_round_loop_ok_of_inv (fuel : ℕ) (s : RoundState) (rng : RngEngine)
    (hinv : RoundInv s) : ∃ r, play_round_loop fuel s rng = .ok r := by
  induction fuel generalizing s rng with
  | zero =>
    unfold play_round_loop
    split
    · exact ⟨_, rfl⟩
    · exact ⟨_, rfl⟩
  | succ fuel ih =>
    unfold play_round_loop
    split
    · rename_i hguard
      obtain ⟨⟨td, yc2, oc2, rng2⟩, hok⟩ :=
        play_turn_ok_of_alive (s.your_team.get ⟨s.your_index, hguard.1⟩)
          (s.opponent_team.get ⟨s.opponent_index, hguard.2⟩) s.is_your_turn rng
          (hinv.1 s.your_index hguard.1 (le_refl _))
          (hinv.2 s.opponent_index hguard.2 (le_refl _))
      rw [hok]
      apply ih
      constructor
      · by_cases hyc2 : yc2.effective_stats.current_hp ≤ 0
        · simp only [hyc2, if_pos]
          exact alive_from_set_succ _ _ _ hinv.1
        · simp only [if_neg hyc2]
          exact alive_from_set_alive _ _ _ hinv.1 (not_le.mp hyc2)
      · by_cases hoc2 : oc2.effective_stats.current_hp ≤ 0
        · simp only [hoc2, if_pos]
          exact alive_from_set_succ _ _ _ hinv.2
        · simp only [if_neg hoc2]
          exact alive_from_set_alive _ _ _ hinv.2 (not_le.mp hoc2)
    · exact ⟨_, rfl⟩

end Backend

/-- C7: when both loaded teams consist only of live characters, `play_round`
never calls `play_turn` on a participant with non-positive health: the
post-turn index checks advance past any character whose health dropped, so
the dead-combatant `ValueError` is never raised and the round resolves
normally (up to the fuel bound). -/
theorem c7_round_precondition (fuel : ℕ) (yt ot : List Backend.BaseCharacter)
    (first : Bool) (rng : Backend.RngEngine)
    (hy : Backend.alive_from yt 0) (ho : Backend.alive_from ot 0) :
    ∃ r, Backend.play_round fuel yt ot first rng = .ok r := by
  obtain ⟨r, hr⟩ := Backend.play_round_loop_ok_of_inv fuel
    ⟨yt, ot, 0, 0, first, []⟩ rng ⟨hy, ho⟩
  unfold Backend.play_round
  rw [hr]
  rcases r with _ | ⟨s, rng2⟩
  · exact ⟨_, rfl⟩
  · exact ⟨_, rfl⟩

/-- Witness for C7 at concrete inputs: two singleton live teams. -/
theorem c7_witness :
    ∃ r, Backend.play_round 3 [Backend.heroA] [Backend.heroB] true Backend.rngFalse = .ok r :=
  c7_round_precondition 3 [Backend.heroA] [Backend.heroB] true Backend.rngFalse
    (by
      intro i h hle
      simp only [List.length_singleton] at h
      obtain rfl : i = 0 := by omega
      norm_num [List.get_cons_zero, Backend.heroA, Backend.mkChar, Backend.atkPhys20])
    (by
      intro i h hle
      simp only [List.length_singleton] at h
      obtain rfl : i = 0 := by omega
      norm_num [List.get_cons_zero, Backend.heroB, Backend.mkChar, Backend.atkPhys20])

namespace Backend

/-- Embedding of `backend.play_match` (backend.py lines 161–207), with the
external loader factored out: `your_assignments`/`opponent_assignments` map
a round number to the team the loader would produce for that round's
assignment file.  The Python line
`is_round_your_win, round_description = play_round(...)` unpacks the
3-tuple returned by `play_round` into two targets, which raises
`ValueError: too many values to unpack (expected 2)` as soon as the first
round has resolved; the embedding reproduces that: the header line and the
round are evaluated, then the unpacking error is raised, so the loop body
never completes an iteration. -/
def play_match (fuel : ℕ) (your_assignments opponent_assignments : ℕ → List BaseCharacter)
    (rng_engine : RngEngine) : Except String (Option (Bool × List String)) :=
  let draw := rng_engine.rng 50
  let is_your_turn_first := draw.1
  let rng_engine := draw.2
  match play_round fuel (your_assignments 1) (opponent_assignments 1)
      is_your_turn_first rng_engine with
  | .error e => .error e
  | .ok none => .ok none
  | .ok (some _) => .error "ValueError: too many values to unpack (expected 2)"

end Backend

/-- C8 (code bug): `play_match` can never tally round wins, stop at
`N_WINS`, or return `your_wins > opponent_wins` — `play_round` returns a
3-tuple while `play_match` unpacks it into two names, so every invocation
whose first round resolves raises the tuple-unpacking `ValueError` instead
of playing the match out. -/
theorem c8_match_unpack_bug (fuel : ℕ)
    (ya oa : ℕ → List Backend.BaseCharacter) (rng : Backend.RngEngine)
    (x : Bool × List String ×
      (List Backend.BaseCharacter × List Backend.BaseCharacter) × Backend.RngEngine)
    (h : Backend.play_round fuel (ya 1) (oa 1) (rng.rng 50).1 (rng.rng 50).2 =
      .ok (some x)) :
    Backend.play_match fuel ya oa rng =
      .error "ValueError: too many values to unpack (expected 2)" := by
  simp only [Backend.play_match]
  rw [h]

/-- Witness for C8 at concrete inputs: with empty round-1 teams the first
round resolves at once and the match raises the unpacking error. -/
theorem c8_witness :
    Backend.play_match 1 (fun _ => []) (fun _ => []) Backend.rngFalse =
      .error "ValueError: too many values to unpack (expected 2)" :=
  c8_match_unpack_bug 1 (fun _ => []) (fun _ => []) Backend.rngFalse
    (false, [], ([], []), (Backend.rngFalse.rng 50).2) (by rfl)
